import Mathlib

/-!
Shallow embedding of the keyboard-gesture detector core of the murmur-app
repository (src/ui/src-tauri/src/keyboard/{mod,double_tap,hold_down,listener}.rs).

Time is modelled as `Nat` milliseconds; `Instant::now()` at the moment an
event is processed becomes an explicit `now : Nat` argument, and
`Instant::elapsed().as_millis()` becomes truncated subtraction `now - t`.
Rust's `&mut self` methods become pure functions returning the result paired
with the updated state.
-/

namespace Murmur

/-- The subset of `rdev::Key` the detector logic distinguishes: the eight
modifier keys named in `is_modifier`, plus representative non-modifier keys. -/
inductive Key where
  | ShiftLeft
  | ShiftRight
  | Alt
  | AltGr
  | ControlLeft
  | ControlRight
  | MetaLeft
  | MetaRight
  | KeyA
  | KeyB
  | Space
  | Return
  deriving DecidableEq, Repr

/-- `rdev::EventType`, restricted to the two constructors the detectors match. -/
inductive EventType where
  | keyPress (key : Key)
  | keyRelease (key : Key)
  deriving DecidableEq, Repr

/-- mod.rs: max duration a single tap can be held before it is rejected. -/
def MAX_HOLD_DURATION_MS : Nat := 200

/-- mod.rs: max gap between first key-up and second key-down. -/
def DOUBLE_TAP_WINDOW_MS : Nat := 400

/-- double_tap.rs: cooldown after firing to prevent triple-tap spam. -/
def COOLDOWN_MS : Nat := 50

/-- hold_down.rs: cooldown after hold-down stop to prevent accidental re-trigger. -/
def HOLD_DOWN_COOLDOWN_MS : Nat := 50

/-- mod.rs `is_modifier`: check if a key is any modifier key. -/
def is_modifier (key : Key) : Bool :=
  match key with
  | .ShiftLeft => true
  | .ShiftRight => true
  | .Alt => true
  | .AltGr => true
  | .ControlLeft => true
  | .ControlRight => true
  | .MetaLeft => true
  | .MetaRight => true
  | _ => false

/-- mod.rs `is_same_modifier`: strict equality of keys. -/
def is_same_modifier (a b : Key) : Bool :=
  a == b

/-- mod.rs `hotkey_to_rdev_key`: map hotkey string from settings to a key. -/
def hotkey_to_rdev_key (hotkey : String) : Option Key :=
  if hotkey = "shift_l" then some .ShiftLeft
  else if hotkey = "alt_l" then some .Alt
  else if hotkey = "ctrl_r" then some .ControlRight
  else none

/-- double_tap.rs `DetectorState`. -/
inductive DetectorState where
  | Idle
  | WaitingFirstUp
  | WaitingSecondDown
  | WaitingSecondUp
  deriving DecidableEq, Repr

/-- double_tap.rs `DoubleTapDetector` (timestamps as `Nat` ms). -/
structure DoubleTapDetector where
  state : DetectorState
  target_key : Option Key
  recording : Bool
  state_entered_at : Nat
  last_fired_at : Option Nat
  deriving DecidableEq, Repr

namespace DoubleTapDetector

/-- double_tap.rs `DoubleTapDetector::new` (created at time `now`). -/
def new (now : Nat) : DoubleTapDetector :=
  { state := .Idle
    target_key := none
    recording := false
    state_entered_at := now
    last_fired_at := none }

/-- double_tap.rs `reset`: back to `Idle`, re-stamping `state_entered_at`. -/
def reset (d : DoubleTapDetector) (now : Nat) : DoubleTapDetector :=
  { d with state := .Idle, state_entered_at := now }

/-- double_tap.rs `set_target`: rebind the target key and reset. -/
def set_target (d : DoubleTapDetector) (key : Option Key) (now : Nat) : DoubleTapDetector :=
  reset { d with target_key := key } now

/-- double_tap.rs `transition`: switch state, re-stamping `state_entered_at`. -/
def transition (d : DoubleTapDetector) (new_state : DetectorState) (now : Nat) :
    DoubleTapDetector :=
  { d with state := new_state, state_entered_at := now }

/-- double_tap.rs `elapsed_ms`: milliseconds since the state was entered. -/
def elapsed_ms (d : DoubleTapDetector) (now : Nat) : Nat :=
  now - d.state_entered_at

/-- double_tap.rs `in_cooldown`. -/
def in_cooldown (d : DoubleTapDetector) (now : Nat) : Bool :=
  match d.last_fired_at with
  | some t => decide (now - t < COOLDOWN_MS)
  | none => false

/-- double_tap.rs `handle_event`: process one keyboard event at time `now`.
Returns whether a double-tap was detected, paired with the updated detector. -/
def handle_event (d : DoubleTapDetector) (event_type : EventType) (now : Nat) :
    Bool × DoubleTapDetector :=
  match d.target_key with
  | none => (false, d)
  | some target =>
    if d.in_cooldown now then (false, d)
    else
      match d.state with
      | .Idle =>
        match event_type with
        | .keyPress key =>
          if is_same_modifier key target then (false, d.transition .WaitingFirstUp now)
          else (false, d)
        | _ => (false, d)
      | .WaitingFirstUp =>
        match event_type with
        | .keyRelease key =>
          if is_same_modifier key target then
            if d.elapsed_ms now ≤ MAX_HOLD_DURATION_MS then
              if d.recording then
                (true, { d.reset now with last_fired_at := some now })
              else
                (false, d.transition .WaitingSecondDown now)
            else
              (false, d.reset now)
          else
            if d.elapsed_ms now > MAX_HOLD_DURATION_MS then (false, d.reset now)
            else (false, d)
        | .keyPress key =>
          if is_modifier key then
            if is_same_modifier key target then
              if d.elapsed_ms now > MAX_HOLD_DURATION_MS then (false, d.reset now)
              else (false, d)
            else
              if d.elapsed_ms now > MAX_HOLD_DURATION_MS then (false, d.reset now)
              else (false, d)
          else
            (false, d.reset now)
      | .WaitingSecondDown =>
        if d.elapsed_ms now > DOUBLE_TAP_WINDOW_MS then (false, d.reset now)
        else
          match event_type with
          | .keyPress key =>
            if is_same_modifier key target then (false, d.transition .WaitingSecondUp now)
            else (false, d.reset now)
          | _ => (false, d)
      | .WaitingSecondUp =>
        match event_type with
        | .keyRelease key =>
          if is_same_modifier key target then
            if d.elapsed_ms now ≤ MAX_HOLD_DURATION_MS then
              (true, { d.reset now with last_fired_at := some now })
            else
              (false, d.reset now)
          else
            if d.elapsed_ms now > MAX_HOLD_DURATION_MS then (false, d.reset now)
            else (false, d)
        | .keyPress key =>
          if is_modifier key then
            if is_same_modifier key target then
              if d.elapsed_ms now > MAX_HOLD_DURATION_MS then (false, d.reset now)
              else (false, d)
            else
              if d.elapsed_ms now > MAX_HOLD_DURATION_MS then (false, d.reset now)
              else (false, d)
          else
            (false, d.reset now)

end DoubleTapDetector

/-- hold_down.rs `HoldDownEvent`. -/
inductive HoldDownEvent where
  | None
  | Start
  | Stop
  deriving DecidableEq, Repr

/-- hold_down.rs `HoldState`. -/
inductive HoldState where
  | Idle
  | Held
  deriving DecidableEq, Repr

/-- hold_down.rs `HoldDownDetector` (timestamps as `Nat` ms). -/
structure HoldDownDetector where
  state : HoldState
  target_key : Option Key
  last_stopped_at : Option Nat
  deriving DecidableEq, Repr

namespace HoldDownDetector

/-- hold_down.rs `HoldDownDetector::new`. -/
def new : HoldDownDetector :=
  { state := .Idle, target_key := none, last_stopped_at := none }

/-- hold_down.rs `set_target`: rebind the key; returns `true` when the
detector was `Held` (caller should emit a synthetic stop), paired with the
updated detector. -/
def set_target (d : HoldDownDetector) (key : Option Key) (now : Nat) :
    Bool × HoldDownDetector :=
  let was_held := d.state = HoldState.Held
  if was_held then
    (true, { d with state := .Idle, last_stopped_at := some now, target_key := key })
  else
    (false, { d with target_key := key })

/-- hold_down.rs `reset`: back to `Idle` (does not touch `last_stopped_at`). -/
def reset (d : HoldDownDetector) : HoldDownDetector :=
  { d with state := .Idle }

/-- hold_down.rs `in_cooldown`. -/
def in_cooldown (d : HoldDownDetector) (now : Nat) : Bool :=
  match d.last_stopped_at with
  | some t => decide (now - t < HOLD_DOWN_COOLDOWN_MS)
  | none => false

/-- hold_down.rs `handle_event`: process one keyboard event at time `now`.
Returns `Start`, `Stop` or `None`, paired with the updated detector. -/
def handle_event (d : HoldDownDetector) (event_type : EventType) (now : Nat) :
    HoldDownEvent × HoldDownDetector :=
  match d.target_key with
  | none => (.None, d)
  | some target =>
    match d.state with
    | .Idle =>
      match event_type with
      | .keyPress key =>
        if is_same_modifier key target ∧ ¬ d.in_cooldown now then
          (.Start, { d with state := .Held })
        else
          (.None, d)
      | _ => (.None, d)
    | .Held =>
      match event_type with
      | .keyRelease key =>
        if is_same_modifier key target then
          (.Stop, { d with state := .Idle, last_stopped_at := some now })
        else
          (.None, d)
      | .keyPress key =>
        if is_same_modifier key target then
          (.None, d)
        else if is_modifier key then
          (.None, d)
        else
          (.Stop, { d with state := .Idle, last_stopped_at := some now })

end HoldDownDetector

/-- mod.rs `DetectorMode`. -/
inductive DetectorMode where
  | DoubleTap
  | HoldDown
  | Both
  deriving DecidableEq, Repr

/-- The three named signals the listener emits to the frontend
(`double-tap-toggle`, `hold-down-start`, `hold-down-stop`). -/
inductive Emit where
  | doubleTapToggle
  | holdDownStart
  | holdDownStop
  deriving DecidableEq, Repr

/-- The module-level statics of mod.rs, gathered into one state record:
`HOLD_PRESS_COUNTER`, `HOLD_PROMOTED`, `IS_PROCESSING`, `LISTENER_ACTIVE`,
`LISTENER_THREAD_SPAWNED`, `ACTIVE_MODE`, `DOUBLE_TAP_DETECTOR`,
`HOLD_DOWN_DETECTOR`. -/
structure KeyboardGlobals where
  hold_press_counter : Nat
  hold_promoted : Bool
  is_processing : Bool
  listener_active : Bool
  listener_thread_spawned : Bool
  active_mode : DetectorMode
  double_tap_detector : Option DoubleTapDetector
  hold_down_detector : Option HoldDownDetector
  deriving DecidableEq, Repr

namespace KeyboardGlobals

/-- mod.rs `set_processing`: toggle the processing flag; on entering
processing, invalidate pending timers and reset both detectors; on leaving,
reset both detectors and seed their cooldown anchors to `now`. -/
def set_processing (g : KeyboardGlobals) (processing : Bool) (now : Nat) : KeyboardGlobals :=
  let was_processing := g.is_processing
  let g := { g with is_processing := processing }
  if was_processing = false ∧ processing = true then
    let hd := g.hold_down_detector.map (fun d => d.reset)
    let dt := g.double_tap_detector.map (fun d => d.reset now)
    { g with hold_promoted := false
             hold_press_counter := g.hold_press_counter + 1
             hold_down_detector := hd
             double_tap_detector := dt }
  else if was_processing = true ∧ processing = false then
    let hd := g.hold_down_detector.map (fun d => { d.reset with last_stopped_at := some now })
    let dt := g.double_tap_detector.map (fun d => { d.reset now with last_fired_at := some now })
    { g with hold_down_detector := hd
             double_tap_detector := dt
             hold_promoted := false
             hold_press_counter := g.hold_press_counter + 1 }
  else g

/-- mod.rs `start_listener`: set the active mode, (re)bind the detector(s)
for that mode to the hotkey's key, and enable the listener. The rdev thread
spawn itself is an external effect; its guard flag is modelled by setting
`listener_thread_spawned`. -/
def start_listener (g : KeyboardGlobals) (hotkey : String) (mode : String) (now : Nat) :
    KeyboardGlobals :=
  let target := hotkey_to_rdev_key hotkey
  let detector_mode :=
    if mode = "hold_down" then DetectorMode.HoldDown
    else if mode = "both" then DetectorMode.Both
    else DetectorMode.DoubleTap
  let g := { g with active_mode := detector_mode }
  let dt_updated :=
    match g.double_tap_detector with
    | some d => d.set_target target now
    | none => (DoubleTapDetector.new now).set_target target now
  let hd_updated :=
    match g.hold_down_detector with
    | some d => (d.set_target target now).2
    | none => (HoldDownDetector.new.set_target target now).2
  let g :=
    match detector_mode with
    | .DoubleTap => { g with double_tap_detector := some dt_updated }
    | .HoldDown => { g with hold_down_detector := some hd_updated }
    | .Both =>
      { g with hold_down_detector := some hd_updated, double_tap_detector := some dt_updated }
  { g with listener_active := true, listener_thread_spawned := true }

/-- mod.rs `stop_listener`: disable event processing, reset both detectors,
clear the promoted flag and bump the generation counter to invalidate
pending timers. -/
def stop_listener (g : KeyboardGlobals) (now : Nat) : KeyboardGlobals :=
  let dt := g.double_tap_detector.map (fun d => d.reset now)
  let hd := g.hold_down_detector.map (fun d => d.reset)
  { g with listener_active := false
           double_tap_detector := dt
           hold_down_detector := hd
           hold_promoted := false
           hold_press_counter := g.hold_press_counter + 1 }

/-- mod.rs `set_target_key`: rebind the target key without stopping; returns
whether a hold-down stop event should be emitted. -/
def set_target_key (g : KeyboardGlobals) (hotkey : String) (now : Nat) :
    Bool × KeyboardGlobals :=
  let target := hotkey_to_rdev_key hotkey
  match g.active_mode with
  | .DoubleTap =>
    let dt := g.double_tap_detector.map (fun d => d.set_target target now)
    (false, { g with double_tap_detector := dt })
  | .HoldDown =>
    match g.hold_down_detector with
    | some d =>
      let r := d.set_target target now
      (r.1, { g with hold_down_detector := some r.2 })
    | none => (false, g)
  | .Both =>
    let r :=
      match g.hold_down_detector with
      | some d =>
        let r := d.set_target target now
        (r.1, { g with hold_down_detector := some r.2 })
      | none => (false, g)
    let g := r.2
    let dt := g.double_tap_detector.map (fun d => d.set_target target now)
    (r.1, { g with double_tap_detector := dt })

/-- mod.rs `set_recording_state`. -/
def set_recording_state (g : KeyboardGlobals) (recording : Bool) : KeyboardGlobals :=
  let dt := g.double_tap_detector.map (fun d => { d with recording := recording })
  { g with double_tap_detector := dt }

/-- listener.rs Both arm: the `dtap_second_phase` suppression test, checked
before feeding any detector — the DoubleTapDetector is in its second phase
and still within the double-tap window. -/
def dtap_second_phase (g : KeyboardGlobals) (now : Nat) : Bool :=
  match g.double_tap_detector with
  | some d =>
    decide (d.state = .WaitingSecondDown ∨ d.state = .WaitingSecondUp) &&
      decide (d.elapsed_ms now ≤ DOUBLE_TAP_WINDOW_MS)
  | none => false

/-- listener.rs timer closure: whether the HoldDownDetector is still `Held`. -/
def still_held (g : KeyboardGlobals) : Bool :=
  match g.hold_down_detector with
  | some d => decide (d.state = HoldState.Held)
  | none => false

/-- listener.rs Both arm, body of the spawned promotion-timer thread after
its sleep: if the generation counter still equals the captured `press_id`
and the detector is still `Held`, set `HOLD_PROMOTED` and emit
`hold-down-start`; otherwise do nothing. -/
def timer_check (g : KeyboardGlobals) (press_id : Nat) : KeyboardGlobals × List Emit :=
  if g.hold_press_counter = press_id then
    if g.still_held then
      ({ g with hold_promoted := true }, [Emit.holdDownStart])
    else (g, [])
  else (g, [])

/-- listener.rs `DetectorMode::Both` arm of the callback: second-phase
suppression, deferred-hold arbitration. Returns the updated globals, the
synchronously emitted signals, and the `press_id` captured by a newly
spawned promotion timer (if one was spawned on this event). -/
def both_step (g : KeyboardGlobals) (event_type : EventType) (now : Nat) :
    KeyboardGlobals × List Emit × Option Nat :=
  if g.is_processing then (g, [], none)
  else
    let second_phase := g.dtap_second_phase now
    let hold_fed :=
      if second_phase = false then
        match g.hold_down_detector with
        | some d =>
          let r := d.handle_event event_type now
          (r.1, some r.2)
        | none => (HoldDownEvent.None, none)
      else (HoldDownEvent.None, g.hold_down_detector)
    let hold_result := hold_fed.1
    let dtap_fed :=
      match g.double_tap_detector with
      | some d =>
        let r := d.handle_event event_type now
        (r.1, some r.2)
      | none => (false, none)
    let dtap_fired := dtap_fed.1
    let g := { g with hold_down_detector := hold_fed.2, double_tap_detector := dtap_fed.2 }
    match hold_result with
    | .Start =>
      let press_id := g.hold_press_counter + 1
      ({ g with hold_promoted := false, hold_press_counter := press_id }, [], some press_id)
    | .Stop =>
      let promoted := g.hold_promoted
      let g := { g with hold_promoted := false, hold_press_counter := g.hold_press_counter + 1 }
      if promoted then (g, [Emit.holdDownStop], none)
      else if dtap_fired then (g, [Emit.doubleTapToggle], none)
      else (g, [], none)
    | .None =>
      if dtap_fired then (g, [Emit.doubleTapToggle], none) else (g, [], none)

/-- listener.rs: the rdev callback, dispatching on the active mode. Returns
the updated globals, the emitted signals, and the `press_id` captured by a
newly spawned promotion timer (Both mode only). -/
def callback (g : KeyboardGlobals) (event_type : EventType) (now : Nat) :
    KeyboardGlobals × List Emit × Option Nat :=
  if g.listener_active = false then (g, [], none)
  else
    match g.active_mode with
    | .DoubleTap =>
      let fed :=
        match g.double_tap_detector with
        | some d =>
          let r := d.handle_event event_type now
          (r.1, some r.2)
        | none => (false, none)
      let g := { g with double_tap_detector := fed.2 }
      if fed.1 then (g, [Emit.doubleTapToggle], none) else (g, [], none)
    | .HoldDown =>
      let fed :=
        match g.hold_down_detector with
        | some d =>
          let r := d.handle_event event_type now
          (r.1, some r.2)
        | none => (HoldDownEvent.None, none)
      let g := { g with hold_down_detector := fed.2 }
      match fed.1 with
      | .Start => (g, [Emit.holdDownStart], none)
      | .Stop => (g, [Emit.holdDownStop], none)
      | .None => (g, [], none)
    | .Both => g.both_step event_type now

end KeyboardGlobals

/-- Feed a list of timestamped events through a `DoubleTapDetector`,
collecting the fired results in order. -/
def dt_run : DoubleTapDetector → List (EventType × Nat) → List Bool × DoubleTapDetector
  | d, [] => ([], d)
  | d, (e, t) :: rest =>
    let r := d.handle_event e t
    let rr := dt_run r.2 rest
    (r.1 :: rr.1, rr.2)

/-- Feed a list of timestamped events through a `HoldDownDetector`,
collecting the results in order. -/
def hold_run : HoldDownDetector → List (EventType × Nat) → List HoldDownEvent × HoldDownDetector
  | d, [] => ([], d)
  | d, (e, t) :: rest =>
    let r := d.handle_event e t
    let rr := hold_run r.2 rest
    (r.1 :: rr.1, rr.2)

/-- The non-`None` signals of a result list. -/
def signals (rs : List HoldDownEvent) : List HoldDownEvent :=
  rs.filter (fun r => decide (r ≠ HoldDownEvent.None))

/-- `alternating s sigs`: from detector state `s`, the signal list alternates
`Start`, `Stop`, `Start`, … (`Start` expected first from `Idle`, `Stop`
first from `Held`). -/
def alternating : HoldState → List HoldDownEvent → Bool
  | _, [] => true
  | .Idle, s :: rest => s == HoldDownEvent.Start && alternating .Held rest
  | .Held, s :: rest => s == HoldDownEvent.Stop && alternating .Idle rest

/-- The detector state implied by a signal history: `Held` after a final
`Start`, `Idle` after a final `Stop`, unchanged by `None`. -/
def state_after (s : HoldState) : List HoldDownEvent → HoldState
  | [] => s
  | sig :: rest =>
    match sig with
    | .Start => state_after .Held rest
    | .Stop => state_after .Idle rest
    | .None => state_after s rest

/-- Both-mode double-tap trace for the arbitration claim: the four events
Press/Release/Press/Release of key `k` at times `t1 ≤ t2 ≤ t3 ≤ t4`, with the
promotion timer spawned by the first Press checked as one atomic step at its
wake time `T`. The timer step is interleaved after the last event whose
timestamp is `≤ T` (events that occurred by the wake time have already been
delivered). Returns the final globals and all emitted signals in order. -/
def both_run_c1 (g0 : KeyboardGlobals) (k : Key) (t1 t2 t3 t4 T : Nat) :
    KeyboardGlobals × List Emit :=
  let s1 := g0.both_step (.keyPress k) t1
  let press_id := (s1.2.2).getD 0
  let s2 := s1.1.both_step (.keyRelease k) t2
  let a2 := if T < t3 then s2.1.timer_check press_id else (s2.1, [])
  let s3 := a2.1.both_step (.keyPress k) t3
  let a3 := if t3 ≤ T ∧ T < t4 then s3.1.timer_check press_id else (s3.1, [])
  let s4 := a3.1.both_step (.keyRelease k) t4
  let a4 := if t4 ≤ T then s4.1.timer_check press_id else (s4.1, [])
  (a4.1, s1.2.1 ++ s2.2.1 ++ a2.2 ++ s3.2.1 ++ a3.2 ++ s4.2.1 ++ a4.2)

/-! ### Helper lemmas -/

/-- Once outside the double-tap cooldown, any later instant with the same
`last_fired_at` anchor is also outside the cooldown. -/
theorem DoubleTapDetector.in_cooldown_mono (d d' : DoubleTapDetector) (t t' : Nat)
    (hf : d'.last_fired_at = d.last_fired_at) (hle : t ≤ t')
    (h : d.in_cooldown t = false) : d'.in_cooldown t' = false := by
  unfold DoubleTapDetector.in_cooldown at *
  rw [hf]
  cases hlf : d.last_fired_at with
  | none => simp
  | some f =>
    rw [hlf] at h
    simp only [decide_eq_false_iff_not, not_lt] at h ⊢
    omega

/-- Step: in `Idle` outside cooldown, Press(target) moves to `WaitingFirstUp`. -/
theorem dt_idle_press (k : Key) (rec : Bool) (e0 : Nat) (lf : Option Nat) (t : Nat)
    (hc : DoubleTapDetector.in_cooldown ⟨.Idle, some k, rec, e0, lf⟩ t = false) :
    DoubleTapDetector.handle_event ⟨.Idle, some k, rec, e0, lf⟩ (.keyPress k) t =
      (false, ⟨.WaitingFirstUp, some k, rec, t, lf⟩) := by
  simp only [DoubleTapDetector.handle_event, hc, Bool.false_eq_true, if_false,
    is_same_modifier, beq_self_eq_true, if_true, DoubleTapDetector.transition]

/-- Step: in `WaitingFirstUp` with `recording = false`, a quick Release(target)
moves to `WaitingSecondDown` without firing. -/
theorem dt_wfu_release_quick (k : Key) (t1 : Nat) (lf : Option Nat) (t2 : Nat)
    (hc : DoubleTapDetector.in_cooldown ⟨.WaitingFirstUp, some k, false, t1, lf⟩ t2 = false)
    (h2 : t2 - t1 ≤ MAX_HOLD_DURATION_MS) :
    DoubleTapDetector.handle_event ⟨.WaitingFirstUp, some k, false, t1, lf⟩ (.keyRelease k) t2 =
      (false, ⟨.WaitingSecondDown, some k, false, t2, lf⟩) := by
  simp only [DoubleTapDetector.handle_event, hc, Bool.false_eq_true, if_false,
    is_same_modifier, beq_self_eq_true, if_true, DoubleTapDetector.transition,
    DoubleTapDetector.elapsed_ms]
  rw [if_pos h2]

/-- Step: in `WaitingSecondDown` inside the window, Press(target) moves to
`WaitingSecondUp`. -/
theorem dt_wsd_press_quick (k : Key) (rec : Bool) (t2 : Nat) (lf : Option Nat) (t3 : Nat)
    (hc : DoubleTapDetector.in_cooldown ⟨.WaitingSecondDown, some k, rec, t2, lf⟩ t3 = false)
    (h3 : t3 - t2 ≤ DOUBLE_TAP_WINDOW_MS) :
    DoubleTapDetector.handle_event ⟨.WaitingSecondDown, some k, rec, t2, lf⟩ (.keyPress k) t3 =
      (false, ⟨.WaitingSecondUp, some k, rec, t3, lf⟩) := by
  simp only [DoubleTapDetector.handle_event, hc, Bool.false_eq_true, if_false,
    is_same_modifier, beq_self_eq_true, if_true, DoubleTapDetector.transition,
    DoubleTapDetector.elapsed_ms]
  rw [if_neg (by omega)]

/-- Step: in `WaitingSecondUp`, a quick Release(target) fires and resets. -/
theorem dt_wsu_release_quick (k : Key) (rec : Bool) (t3 : Nat) (lf : Option Nat) (t4 : Nat)
    (hc : DoubleTapDetector.in_cooldown ⟨.WaitingSecondUp, some k, rec, t3, lf⟩ t4 = false)
    (h4 : t4 - t3 ≤ MAX_HOLD_DURATION_MS) :
    DoubleTapDetector.handle_event ⟨.WaitingSecondUp, some k, rec, t3, lf⟩ (.keyRelease k) t4 =
      (true, ⟨.Idle, some k, rec, t4, some t4⟩) := by
  simp only [DoubleTapDetector.handle_event, hc, Bool.false_eq_true, if_false,
    is_same_modifier, beq_self_eq_true, if_true, DoubleTapDetector.reset,
    DoubleTapDetector.elapsed_ms]
  rw [if_pos h4]

/-- Step: in `Idle` outside cooldown, Press(target) yields `Start`. -/
theorem hd_idle_press (k : Key) (ls : Option Nat) (t : Nat)
    (hc : HoldDownDetector.in_cooldown ⟨.Idle, some k, ls⟩ t = false) :
    HoldDownDetector.handle_event ⟨.Idle, some k, ls⟩ (.keyPress k) t =
      (.Start, ⟨.Held, some k, ls⟩) := by
  simp only [HoldDownDetector.handle_event, is_same_modifier, beq_self_eq_true, hc]
  rw [if_pos (by simp)]

/-- Step: in `Held`, Release(target) yields `Stop` and records the stop time. -/
theorem hd_held_release (k : Key) (ls : Option Nat) (t : Nat) :
    HoldDownDetector.handle_event ⟨.Held, some k, ls⟩ (.keyRelease k) t =
      (.Stop, ⟨.Idle, some k, some t⟩) := by
  simp only [HoldDownDetector.handle_event, is_same_modifier, beq_self_eq_true, if_true]

/-- A stale promotion timer (captured generation differs from the current
counter) is a no-op. -/
theorem timer_check_stale (g : KeyboardGlobals) (press_id : Nat)
    (h : g.hold_press_counter ≠ press_id) : g.timer_check press_id = (g, []) := by
  simp only [KeyboardGlobals.timer_check, if_neg h]

/-- The full double-tap sequence on the bare DoubleTapDetector: starting
`Idle` with `recording = false` outside cooldown, Press/Release/Press/Release
of the target within the thresholds returns `true` exactly on the final
Release and ends `Idle`. -/
theorem dt_double_tap_seq (k : Key) (e0 : Nat) (lf : Option Nat) (t1 t2 t3 t4 : Nat)
    (hc : DoubleTapDetector.in_cooldown ⟨.Idle, some k, false, e0, lf⟩ t1 = false)
    (h12 : t1 ≤ t2) (h2 : t2 - t1 ≤ MAX_HOLD_DURATION_MS)
    (h23 : t2 ≤ t3) (h3 : t3 - t2 ≤ DOUBLE_TAP_WINDOW_MS)
    (h34 : t3 ≤ t4) (h4 : t4 - t3 ≤ MAX_HOLD_DURATION_MS) :
    dt_run ⟨.Idle, some k, false, e0, lf⟩
      [(.keyPress k, t1), (.keyRelease k, t2), (.keyPress k, t3), (.keyRelease k, t4)] =
      ([false, false, false, true], ⟨.Idle, some k, false, t4, some t4⟩) := by
  have hc2 : DoubleTapDetector.in_cooldown ⟨.WaitingFirstUp, some k, false, t1, lf⟩ t2 = false :=
    DoubleTapDetector.in_cooldown_mono _ _ t1 t2 rfl h12 hc
  have hc3 : DoubleTapDetector.in_cooldown ⟨.WaitingSecondDown, some k, false, t2, lf⟩ t3 = false :=
    DoubleTapDetector.in_cooldown_mono _ _ t1 t3 rfl (le_trans h12 h23) hc
  have hc4 : DoubleTapDetector.in_cooldown ⟨.WaitingSecondUp, some k, false, t3, lf⟩ t4 = false :=
    DoubleTapDetector.in_cooldown_mono _ _ t1 t4 rfl (le_trans h12 (le_trans h23 h34)) hc
  simp only [dt_run, dt_idle_press k false e0 lf t1 hc, dt_wfu_release_quick k t1 lf t2 hc2 h2,
    dt_wsd_press_quick k false t2 lf t3 hc3 h3, dt_wsu_release_quick k false t3 lf t4 hc4 h4]

/-- Both-mode step: fresh press of the target spawns a deferred-hold timer
(capturing the freshly incremented generation) and emits nothing. -/
theorem both_press1 (k : Key) (c : Nat) (la lsp : Bool) (e0 : Nat) (lf ls : Option Nat) (t1 : Nat)
    (hcd : DoubleTapDetector.in_cooldown ⟨.Idle, some k, false, e0, lf⟩ t1 = false)
    (hch : HoldDownDetector.in_cooldown ⟨.Idle, some k, ls⟩ t1 = false) :
    KeyboardGlobals.both_step
      ⟨c, false, false, la, lsp, .Both, some ⟨.Idle, some k, false, e0, lf⟩, some ⟨.Idle, some k, ls⟩⟩
      (.keyPress k) t1 =
      (⟨c + 1, false, false, la, lsp, .Both, some ⟨.WaitingFirstUp, some k, false, t1, lf⟩,
        some ⟨.Held, some k, ls⟩⟩, [], some (c + 1)) := by
  simp only [KeyboardGlobals.both_step, KeyboardGlobals.dtap_second_phase,
    dt_idle_press k false e0 lf t1 hcd, hd_idle_press k ls t1 hch]
  simp

/-- Both-mode step: a quick release of the target stops the (unpromoted)
hold, bumps the generation and emits nothing. -/
theorem both_release2 (k : Key) (c : Nat) (la lsp : Bool) (t1 : Nat) (lf ls : Option Nat) (t2 : Nat)
    (hcd : DoubleTapDetector.in_cooldown ⟨.WaitingFirstUp, some k, false, t1, lf⟩ t2 = false)
    (h2 : t2 - t1 ≤ MAX_HOLD_DURATION_MS) :
    KeyboardGlobals.both_step
      ⟨c, false, false, la, lsp, .Both, some ⟨.WaitingFirstUp, some k, false, t1, lf⟩,
        some ⟨.Held, some k, ls⟩⟩ (.keyRelease k) t2 =
      (⟨c + 1, false, false, la, lsp, .Both, some ⟨.WaitingSecondDown, some k, false, t2, lf⟩,
        some ⟨.Idle, some k, some t2⟩⟩, [], none) := by
  simp only [KeyboardGlobals.both_step, KeyboardGlobals.dtap_second_phase,
    dt_wfu_release_quick k t1 lf t2 hcd h2, hd_held_release k ls t2]
  simp

/-- Both-mode step: the second press inside the window is suppressed from
the HoldDownDetector (second-phase rule) and only advances the DoubleTapDetector. -/
theorem both_press3 (k : Key) (c : Nat) (la lsp : Bool) (t2 : Nat) (lf : Option Nat)
    (hs : Option Nat) (t3 : Nat)
    (hcd : DoubleTapDetector.in_cooldown ⟨.WaitingSecondDown, some k, false, t2, lf⟩ t3 = false)
    (h3 : t3 - t2 ≤ DOUBLE_TAP_WINDOW_MS) :
    KeyboardGlobals.both_step
      ⟨c, false, false, la, lsp, .Both, some ⟨.WaitingSecondDown, some k, false, t2, lf⟩,
        some ⟨.Idle, some k, hs⟩⟩ (.keyPress k) t3 =
      (⟨c, false, false, la, lsp, .Both, some ⟨.WaitingSecondUp, some k, false, t3, lf⟩,
        some ⟨.Idle, some k, hs⟩⟩, [], none) := by
  simp only [KeyboardGlobals.both_step, KeyboardGlobals.dtap_second_phase,
    dt_wsd_press_quick k false t2 lf t3 hcd h3, DoubleTapDetector.elapsed_ms]
  simp [h3]

/-- Both-mode step: the second release inside the window is suppressed from
the HoldDownDetector; the DoubleTapDetector fires, so `double-tap-toggle` is
emitted. -/
theorem both_release4 (k : Key) (c : Nat) (la lsp : Bool) (t3 : Nat) (lf : Option Nat)
    (hs : Option Nat) (t4 : Nat)
    (hcd : DoubleTapDetector.in_cooldown ⟨.WaitingSecondUp, some k, false, t3, lf⟩ t4 = false)
    (h4 : t4 - t3 ≤ MAX_HOLD_DURATION_MS) :
    KeyboardGlobals.both_step
      ⟨c, false, false, la, lsp, .Both, some ⟨.WaitingSecondUp, some k, false, t3, lf⟩,
        some ⟨.Idle, some k, hs⟩⟩ (.keyRelease k) t4 =
      (⟨c, false, false, la, lsp, .Both, some ⟨.Idle, some k, false, t4, some t4⟩,
        some ⟨.Idle, some k, hs⟩⟩, [Emit.doubleTapToggle], none) := by
  have h4w : t4 - t3 ≤ DOUBLE_TAP_WINDOW_MS := by
    simp only [MAX_HOLD_DURATION_MS] at h4
    simp only [DOUBLE_TAP_WINDOW_MS]
    omega
  simp only [KeyboardGlobals.both_step, KeyboardGlobals.dtap_second_phase,
    dt_wsu_release_quick k false t3 lf t4 hcd h4, DoubleTapDetector.elapsed_ms]
  simp [h4w]

/-- handle_event never changes the key the HoldDownDetector is bound to. -/
theorem hold_target_preserved (d : HoldDownDetector) (e : EventType) (now : Nat) :
    ((d.handle_event e now).2).target_key = d.target_key := by
  rcases d with ⟨st, tk, ls⟩
  cases tk <;> cases st <;> cases e <;>
    simp only [HoldDownDetector.handle_event] <;> split_ifs <;> rfl

/-- Per-step characterization of the HoldDownDetector: `Start` exactly on
the `Idle → Held` transition, `Stop` exactly on `Held → Idle`, `None`
exactly when the state is unchanged. -/
theorem hold_step_cases (d : HoldDownDetector) (k : Key) (e : EventType) (now : Nat)
    (ht : d.target_key = some k) :
    ((d.handle_event e now).1 = .Start ↔
      d.state = .Idle ∧ ((d.handle_event e now).2).state = .Held) ∧
    ((d.handle_event e now).1 = .Stop ↔
      d.state = .Held ∧ ((d.handle_event e now).2).state = .Idle) ∧
    ((d.handle_event e now).1 = .None ↔ ((d.handle_event e now).2).state = d.state) := by
  rcases d with ⟨st, tk, ls⟩
  simp only at ht
  subst ht
  cases st <;> cases e <;>
    simp only [HoldDownDetector.handle_event] <;>
    first
      | (split_ifs <;> simp_all)
      | simp_all

/-- Over any event list, the non-`None` signals of a HoldDownDetector run
alternate (`Start` expected first from `Idle`), and the final state is the
one implied by the last signal. -/
theorem hold_run_alternating (evs : List (EventType × Nat)) (d : HoldDownDetector) (k : Key)
    (ht : d.target_key = some k) :
    alternating d.state (signals (hold_run d evs).1) = true ∧
    ((hold_run d evs).2).state = state_after d.state (signals (hold_run d evs).1) := by
  induction evs generalizing d with
  | nil => simp [hold_run, signals, alternating, state_after]
  | cons et rest ih =>
    obtain ⟨e, t⟩ := et
    have hpres : ((d.handle_event e t).2).target_key = some k := by
      rw [hold_target_preserved]; exact ht
    have hstep := hold_step_cases d k e t ht
    have hrec := ih (d.handle_event e t).2 hpres
    simp only [hold_run, signals] at *
    cases hr : (HoldDownDetector.handle_event d e t).1 with
    | None =>
      have hsame : ((d.handle_event e t).2).state = d.state := (hstep.2.2).mp hr
      rw [hr] at *
      simp only [List.filter_cons]
      norm_num at hrec ⊢
      rw [← hsame]
      exact hrec
    | Start =>
      have h1 : d.state = .Idle ∧ ((d.handle_event e t).2).state = .Held := hstep.1.mp hr
      rw [hr] at *
      simp only [List.filter_cons]
      norm_num at hrec ⊢
      rw [h1.1]
      simp only [alternating, state_after]
      rw [← h1.2]
      simpa using hrec
    | Stop =>
      have h1 : d.state = .Held ∧ ((d.handle_event e t).2).state = .Idle := hstep.2.1.mp hr
      rw [hr] at *
      simp only [List.filter_cons]
      norm_num at hrec ⊢
      rw [h1.1]
      simp only [alternating, state_after]
      rw [← h1.2]
      simpa using hrec

/-! ### Claim theorems -/

/-- C1: In Both mode, every quick double-tap sequence on the target key
(Press at `t1`, Release at `t2` within `MAX_HOLD_DURATION_MS`, Press at `t3`
within `DOUBLE_TAP_WINDOW_MS`, Release at `t4` within
`MAX_HOLD_DURATION_MS`), with the promotion timer modelled as a step checked
no earlier than `MAX_HOLD_DURATION_MS` after the first Press, emits exactly
one `double-tap` signal (on the final Release) and zero `hold-start` /
`hold-stop` signals; moreover the `dtap_second_phase` suppression test is
true at the second Press and the second Release, so neither is fed to the
HoldDownDetector (visible in the final hold state: it still records the
first release time `t2`). -/
theorem C1_both_mode_quick_double_tap (k : Key) (c : Nat) (la lsp : Bool) (e0 : Nat)
    (lf ls : Option Nat) (t1 t2 t3 t4 T : Nat)
    (hcd : DoubleTapDetector.in_cooldown ⟨.Idle, some k, false, e0, lf⟩ t1 = false)
    (hch : HoldDownDetector.in_cooldown ⟨.Idle, some k, ls⟩ t1 = false)
    (h12 : t1 ≤ t2) (h2 : t2 - t1 ≤ MAX_HOLD_DURATION_MS)
    (h23 : t2 ≤ t3) (h3 : t3 - t2 ≤ DOUBLE_TAP_WINDOW_MS)
    (h34 : t3 ≤ t4) (h4 : t4 - t3 ≤ MAX_HOLD_DURATION_MS)
    (hT : t1 + MAX_HOLD_DURATION_MS ≤ T) :
    both_run_c1
      ⟨c, false, false, la, lsp, .Both, some ⟨.Idle, some k, false, e0, lf⟩,
        some ⟨.Idle, some k, ls⟩⟩ k t1 t2 t3 t4 T =
      (⟨c + 1 + 1, false, false, la, lsp, .Both, some ⟨.Idle, some k, false, t4, some t4⟩,
        some ⟨.Idle, some k, some t2⟩⟩, [Emit.doubleTapToggle]) ∧
    ((KeyboardGlobals.both_step
        ⟨c, false, false, la, lsp, .Both, some ⟨.Idle, some k, false, e0, lf⟩,
          some ⟨.Idle, some k, ls⟩⟩ (.keyPress k) t1).1.both_step
        (.keyRelease k) t2).1.dtap_second_phase t3 = true ∧
    (((KeyboardGlobals.both_step
        ⟨c, false, false, la, lsp, .Both, some ⟨.Idle, some k, false, e0, lf⟩,
          some ⟨.Idle, some k, ls⟩⟩ (.keyPress k) t1).1.both_step
        (.keyRelease k) t2).1.both_step (.keyPress k) t3).1.dtap_second_phase t4 = true := by
  have hcd2 : DoubleTapDetector.in_cooldown ⟨.WaitingFirstUp, some k, false, t1, lf⟩ t2 = false :=
    DoubleTapDetector.in_cooldown_mono _ _ t1 t2 rfl h12 hcd
  have hcd3 : DoubleTapDetector.in_cooldown ⟨.WaitingSecondDown, some k, false, t2, lf⟩ t3 = false :=
    DoubleTapDetector.in_cooldown_mono _ _ t1 t3 rfl (le_trans h12 h23) hcd
  have hcd4 : DoubleTapDetector.in_cooldown ⟨.WaitingSecondUp, some k, false, t3, lf⟩ t4 = false :=
    DoubleTapDetector.in_cooldown_mono _ _ t1 t4 rfl (le_trans h12 (le_trans h23 h34)) hcd
  have h4w : t4 - t3 ≤ DOUBLE_TAP_WINDOW_MS := by
    simp only [MAX_HOLD_DURATION_MS] at h4
    simp only [DOUBLE_TAP_WINDOW_MS]
    omega
  refine ⟨?_, ?_, ?_⟩
  · simp only [both_run_c1, both_press1 k c la lsp e0 lf ls t1 hcd hch, Option.getD_some,
      both_release2 k (c + 1) la lsp t1 lf ls t2 hcd2 h2,
      timer_check_stale, ne_eq, Nat.succ_ne_self, not_false_iff, ite_self,
      both_press3 k (c + 1 + 1) la lsp t2 lf (some t2) t3 hcd3 h3,
      both_release4 k (c + 1 + 1) la lsp t3 lf (some t2) t4 hcd4 h4,
      List.append_nil, List.nil_append]
  · simp only [both_press1 k c la lsp e0 lf ls t1 hcd hch,
      both_release2 k (c + 1) la lsp t1 lf ls t2 hcd2 h2]
    simp [KeyboardGlobals.dtap_second_phase, DoubleTapDetector.elapsed_ms, h3]
  · simp only [both_press1 k c la lsp e0 lf ls t1 hcd hch,
      both_release2 k (c + 1) la lsp t1 lf ls t2 hcd2 h2,
      both_press3 k (c + 1 + 1) la lsp t2 lf (some t2) t3 hcd3 h3]
    simp [KeyboardGlobals.dtap_second_phase, DoubleTapDetector.elapsed_ms, h4w]

/-- Witness for C1 at the concrete trace Press@0, Release@50, Press@150,
Release@200 with the timer checked at 200. -/
theorem C1_both_mode_quick_double_tap_witness :
    (0 : Nat) + MAX_HOLD_DURATION_MS ≤ 200 ∧
    both_run_c1
      ⟨0, false, false, true, true, .Both, some ⟨.Idle, some .ShiftLeft, false, 0, none⟩,
        some ⟨.Idle, some .ShiftLeft, none⟩⟩ .ShiftLeft 0 50 150 200 200 =
      (⟨0 + 1 + 1, false, false, true, true, .Both,
        some ⟨.Idle, some .ShiftLeft, false, 200, some 200⟩,
        some ⟨.Idle, some .ShiftLeft, some 50⟩⟩, [Emit.doubleTapToggle]) :=
  ⟨by decide,
    (C1_both_mode_quick_double_tap .ShiftLeft 0 true true 0 none none 0 50 150 200 200
      rfl rfl (by decide) (by decide) (by decide) (by decide) (by decide) (by decide)
      (by decide)).1⟩

/-- Concrete Both-mode globals (counter 7, detectors bound to left shift)
used to exhibit the mode-switch behaviour of `start_listener`. -/
def c2_globals : KeyboardGlobals :=
  ⟨7, false, false, true, true, .Both, some ⟨.Idle, some .ShiftLeft, false, 0, none⟩,
    some ⟨.Idle, some .ShiftLeft, none⟩⟩

/-- C2 counterexample: `start_listener` switching the active mode from Both
to HoldDown leaves `HOLD_PRESS_COUNTER` unchanged at 7 — the generation
counter is NOT incremented on a mode switch, contrary to the claim. -/
theorem C2_mode_switch_does_not_increment_counter :
    c2_globals.active_mode = DetectorMode.Both ∧
    (c2_globals.start_listener "shift_l" "hold_down" 0).active_mode = DetectorMode.HoldDown ∧
    (c2_globals.start_listener "shift_l" "hold_down" 0).hold_press_counter =
      c2_globals.hold_press_counter := by
  decide

/-- C2 (amended): the arbitration generation counter is incremented on every
new press-intent (the Both-mode arm whose hold result is `Start`, which
spawns a timer capturing the incremented value), on both
processing-suppression transitions, and on stopping the listener — but not
on mode switches (`start_listener` / `set_target_key` never touch it). -/
theorem C2_generation_counter_increments :
    (∀ (g : KeyboardGlobals) (e : EventType) (now : Nat) (d : HoldDownDetector),
      g.is_processing = false → g.dtap_second_phase now = false →
      g.hold_down_detector = some d → (d.handle_event e now).1 = .Start →
      (g.both_step e now).1.hold_press_counter = g.hold_press_counter + 1 ∧
      (g.both_step e now).2.2 = some (g.hold_press_counter + 1)) ∧
    (∀ (g : KeyboardGlobals) (now : Nat), g.is_processing = false →
      (g.set_processing true now).hold_press_counter = g.hold_press_counter + 1) ∧
    (∀ (g : KeyboardGlobals) (now : Nat), g.is_processing = true →
      (g.set_processing false now).hold_press_counter = g.hold_press_counter + 1) ∧
    (∀ (g : KeyboardGlobals) (now : Nat),
      (g.stop_listener now).hold_press_counter = g.hold_press_counter + 1) := by
  refine ⟨?_, ?_, ?_, ?_⟩
  · intro g e now d hip hsp hhd hr
    simp only [KeyboardGlobals.both_step, hip, hsp, hhd, hr]
    simp
  · intro g now hip
    simp [KeyboardGlobals.set_processing, hip]
  · intro g now hip
    simp [KeyboardGlobals.set_processing, hip]
  · intro g now
    simp [KeyboardGlobals.stop_listener]

/-- Witness for the amended C2: a fresh Both-mode press of the bound key
increments the counter from 7 to 8 and the spawned timer captures 8; a
processing transition from the same state also increments. -/
theorem C2_generation_counter_increments_witness :
    c2_globals.is_processing = false ∧
    (c2_globals.both_step (.keyPress .ShiftLeft) 0).1.hold_press_counter = 8 ∧
    (c2_globals.both_step (.keyPress .ShiftLeft) 0).2.2 = some 8 ∧
    (c2_globals.set_processing true 0).hold_press_counter = 8 :=
  ⟨rfl,
    ((C2_generation_counter_increments.1 c2_globals (.keyPress .ShiftLeft) 0
      ⟨.Idle, some .ShiftLeft, none⟩ rfl rfl rfl rfl).1),
    ((C2_generation_counter_increments.1 c2_globals (.keyPress .ShiftLeft) 0
      ⟨.Idle, some .ShiftLeft, none⟩ rfl rfl rfl rfl).2),
    (C2_generation_counter_increments.2.1 c2_globals 0 rfl)⟩

/-- Concrete DoubleTap-mode globals with the processing flag set, detector
bound to left shift. -/
def c3_globals : KeyboardGlobals :=
  ⟨0, false, true, true, true, .DoubleTap, some ⟨.Idle, some .ShiftLeft, false, 0, none⟩, none⟩

/-- C3 counterexample: with `IS_PROCESSING = true` but the active mode being
DoubleTap, a complete double-tap trace still reaches the detector and emits
`double-tap-toggle` on the final Release — the processing flag does NOT
suppress events in DoubleTap mode, contrary to the claim that suppression
holds uniformly in every mode. -/
theorem C3_processing_not_suppressed_in_double_tap_mode :
    c3_globals.is_processing = true ∧
    ((((c3_globals.callback (.keyPress .ShiftLeft) 0).1.callback
        (.keyRelease .ShiftLeft) 50).1.callback
        (.keyPress .ShiftLeft) 150).1.callback
        (.keyRelease .ShiftLeft) 200).2.1 = [Emit.doubleTapToggle] ∧
    ((((c3_globals.callback (.keyPress .ShiftLeft) 0).1.callback
        (.keyRelease .ShiftLeft) 50).1.callback
        (.keyPress .ShiftLeft) 150).1.callback
        (.keyRelease .ShiftLeft) 200).1.is_processing = true := by
  decide

/-- C3 (amended): while the processing flag is true the callback ignores all
incoming key events in Both mode only — state unchanged, no signal emitted,
no timer spawned; in DoubleTap and HoldDown modes the flag is not consulted
by the callback. -/
theorem C3_processing_suppresses_all_events_in_both_mode (g : KeyboardGlobals)
    (e : EventType) (now : Nat)
    (hp : g.is_processing = true) (hm : g.active_mode = .Both) :
    g.callback e now = (g, [], none) := by
  unfold KeyboardGlobals.callback
  cases hla : g.listener_active
  · simp
  · simp [hm, KeyboardGlobals.both_step, hp]

/-- Witness for the amended C3: a Both-mode state with processing set
ignores a press of the bound key outright. -/
theorem C3_processing_suppresses_all_events_in_both_mode_witness :
    ({ c2_globals with is_processing := true } : KeyboardGlobals).is_processing = true ∧
    ({ c2_globals with is_processing := true } : KeyboardGlobals).callback
      (.keyPress .ShiftLeft) 0 = ({ c2_globals with is_processing := true }, [], none) :=
  ⟨rfl, C3_processing_suppresses_all_events_in_both_mode _ (.keyPress .ShiftLeft) 0 rfl rfl⟩

/-- C4: the deferred-hold promotion timer, when its check runs, emits
`hold-start` and sets `promoted` exactly when the generation counter still
equals its captured value and the HoldDownDetector is still `Held`; if the
counter has changed, or the detector is no longer `Held`, it emits nothing
and mutates no state. -/
theorem C4_timer_promotion_guard (g : KeyboardGlobals) (press_id : Nat) :
    (g.hold_press_counter = press_id → g.still_held = true →
      g.timer_check press_id = ({ g with hold_promoted := true }, [Emit.holdDownStart])) ∧
    (g.hold_press_counter ≠ press_id → g.timer_check press_id = (g, [])) ∧
    (g.still_held = false → g.timer_check press_id = (g, [])) := by
  unfold KeyboardGlobals.timer_check
  refine ⟨?_, ?_, ?_⟩ <;> intros <;> split_ifs <;> simp_all

/-- Witness for C4: with counter 5 and a held detector, the timer with
captured generation 5 promotes and emits `hold-start`; with captured
generation 4 (stale after an increment) it is a no-op. -/
theorem C4_timer_promotion_guard_witness :
    (⟨5, false, false, true, true, .Both, none, some ⟨.Held, some .ShiftLeft, none⟩⟩ :
        KeyboardGlobals).still_held = true ∧
    KeyboardGlobals.timer_check
      ⟨5, false, false, true, true, .Both, none, some ⟨.Held, some .ShiftLeft, none⟩⟩ 5 =
      (⟨5, true, false, true, true, .Both, none, some ⟨.Held, some .ShiftLeft, none⟩⟩,
        [Emit.holdDownStart]) ∧
    KeyboardGlobals.timer_check
      ⟨5, false, false, true, true, .Both, none, some ⟨.Held, some .ShiftLeft, none⟩⟩ 4 =
      (⟨5, false, false, true, true, .Both, none, some ⟨.Held, some .ShiftLeft, none⟩⟩, []) :=
  ⟨rfl,
    (C4_timer_promotion_guard _ 5).1 rfl rfl,
    (C4_timer_promotion_guard _ 4).2.1 (by decide)⟩

/-- C5: for every Press/Release/Press/Release sequence of the target key
within the thresholds, starting from `Idle` outside cooldown with
`recording = false`, `handle_event` returns `true` exactly once — on the
final Release — and the detector ends in `Idle`. -/
theorem C5_double_tap_fires_exactly_on_final_release (k : Key) (e0 : Nat) (lf : Option Nat)
    (t1 t2 t3 t4 : Nat)
    (hc : DoubleTapDetector.in_cooldown ⟨.Idle, some k, false, e0, lf⟩ t1 = false)
    (h12 : t1 ≤ t2) (h2 : t2 - t1 ≤ MAX_HOLD_DURATION_MS)
    (h23 : t2 ≤ t3) (h3 : t3 - t2 ≤ DOUBLE_TAP_WINDOW_MS)
    (h34 : t3 ≤ t4) (h4 : t4 - t3 ≤ MAX_HOLD_DURATION_MS) :
    dt_run ⟨.Idle, some k, false, e0, lf⟩
      [(.keyPress k, t1), (.keyRelease k, t2), (.keyPress k, t3), (.keyRelease k, t4)] =
      ([false, false, false, true], ⟨.Idle, some k, false, t4, some t4⟩) :=
  dt_double_tap_seq k e0 lf t1 t2 t3 t4 hc h12 h2 h23 h3 h34 h4

/-- Witness for C5: the concrete trace Press(Shift)@0, Release@50, Press@150,
Release@200 with thresholds 200/400/50 fires on the final event and ends
`Idle`. -/
theorem C5_double_tap_fires_exactly_on_final_release_witness :
    (50 : Nat) - 0 ≤ MAX_HOLD_DURATION_MS ∧
    dt_run ⟨.Idle, some .ShiftLeft, false, 0, none⟩
      [(.keyPress .ShiftLeft, 0), (.keyRelease .ShiftLeft, 50),
       (.keyPress .ShiftLeft, 150), (.keyRelease .ShiftLeft, 200)] =
      ([false, false, false, true], ⟨.Idle, some .ShiftLeft, false, 200, some 200⟩) :=
  ⟨by decide,
    C5_double_tap_fires_exactly_on_final_release .ShiftLeft 0 none 0 50 150 200
      rfl (by decide) (by decide) (by decide) (by decide) (by decide) (by decide)⟩

/-- C6: HoldDownDetector transitions for a bound target key: in `Idle`
outside cooldown, Press(target) yields `Start` and moves to `Held`; in
`Held`, Release(target) yields `Stop` recording `last_stopped_at = now`;
repeated Press(target) while `Held` yields `None` and stays `Held`; Press of
a different non-modifier key while `Held` yields `Stop` recording the stop
time; every other event yields `None` with no state change — including
Press(target) in `Idle` while still inside the post-stop cooldown. -/
theorem C6_hold_down_transitions (d : HoldDownDetector) (k : Key) (now : Nat)
    (ht : d.target_key = some k) :
    (d.state = .Idle → d.in_cooldown now = false →
      d.handle_event (.keyPress k) now = (.Start, { d with state := .Held })) ∧
    (d.state = .Held →
      d.handle_event (.keyRelease k) now =
        (.Stop, { d with state := .Idle, last_stopped_at := some now })) ∧
    (d.state = .Held → d.handle_event (.keyPress k) now = (.None, d)) ∧
    (∀ key, key ≠ k → is_modifier key = false → d.state = .Held →
      d.handle_event (.keyPress key) now =
        (.Stop, { d with state := .Idle, last_stopped_at := some now })) ∧
    (∀ key, key ≠ k → is_modifier key = true → d.state = .Held →
      d.handle_event (.keyPress key) now = (.None, d)) ∧
    (∀ key, key ≠ k → d.handle_event (.keyRelease key) now = (.None, d)) ∧
    (d.state = .Idle → d.handle_event (.keyRelease k) now = (.None, d)) ∧
    (∀ key, key ≠ k → d.state = .Idle → d.handle_event (.keyPress key) now = (.None, d)) ∧
    (d.state = .Idle → d.in_cooldown now = true →
      d.handle_event (.keyPress k) now = (.None, d)) := by
  rcases d with ⟨st, tk, ls⟩
  simp only at ht
  subst ht
  refine ⟨?_, ?_, ?_, ?_, ?_, ?_, ?_, ?_, ?_⟩ <;> intros <;> cases st <;>
    simp_all [HoldDownDetector.handle_event, is_same_modifier, is_modifier, beq_iff_eq]

/-- Witness for C6: a fresh detector bound to left shift starts on press,
ignores the auto-repeat press, stops on release, and then ignores a press
of the target 20 ms after the stop (inside the 50 ms cooldown) with no state
change. -/
theorem C6_hold_down_transitions_witness :
    (⟨.Idle, some .ShiftLeft, none⟩ : HoldDownDetector).in_cooldown 0 = false ∧
    HoldDownDetector.handle_event ⟨.Idle, some .ShiftLeft, none⟩ (.keyPress .ShiftLeft) 0 =
      (.Start, ⟨.Held, some .ShiftLeft, none⟩) ∧
    HoldDownDetector.handle_event ⟨.Held, some .ShiftLeft, none⟩ (.keyPress .ShiftLeft) 30 =
      (.None, ⟨.Held, some .ShiftLeft, none⟩) ∧
    HoldDownDetector.handle_event ⟨.Held, some .ShiftLeft, none⟩ (.keyRelease .ShiftLeft) 300 =
      (.Stop, ⟨.Idle, some .ShiftLeft, some 300⟩) ∧
    (⟨.Idle, some .ShiftLeft, some 300⟩ : HoldDownDetector).in_cooldown 320 = true ∧
    HoldDownDetector.handle_event ⟨.Idle, some .ShiftLeft, some 300⟩ (.keyPress .ShiftLeft) 320 =
      (.None, ⟨.Idle, some .ShiftLeft, some 300⟩) :=
  ⟨rfl,
    (C6_hold_down_transitions ⟨.Idle, some .ShiftLeft, none⟩ .ShiftLeft 0 rfl).1 rfl rfl,
    (C6_hold_down_transitions ⟨.Held, some .ShiftLeft, none⟩ .ShiftLeft 30 rfl).2.2.1 rfl,
    (C6_hold_down_transitions ⟨.Held, some .ShiftLeft, none⟩ .ShiftLeft 300 rfl).2.1 rfl,
    rfl,
    (C6_hold_down_transitions ⟨.Idle, some .ShiftLeft, some 300⟩ .ShiftLeft 320
      rfl).2.2.2.2.2.2.2.2 rfl rfl⟩

/-- C7: the DoubleTapDetector cooldown gate: any call made while
`now - last_fired_at < COOLDOWN_MS` returns `false` and leaves the entire
detector unchanged; and once `COOLDOWN_MS` has elapsed since the fire, a
full double-tap sequence fires normally again. -/
theorem C7_cooldown_gate :
    (∀ (d : DoubleTapDetector) (e : EventType) (now : Nat),
      d.in_cooldown now = true → d.handle_event e now = (false, d)) ∧
    (∀ (k : Key) (tf e0 t1 t2 t3 t4 : Nat),
      tf + COOLDOWN_MS ≤ t1 →
      t1 ≤ t2 → t2 - t1 ≤ MAX_HOLD_DURATION_MS →
      t2 ≤ t3 → t3 - t2 ≤ DOUBLE_TAP_WINDOW_MS →
      t3 ≤ t4 → t4 - t3 ≤ MAX_HOLD_DURATION_MS →
      dt_run ⟨.Idle, some k, false, e0, some tf⟩
        [(.keyPress k, t1), (.keyRelease k, t2), (.keyPress k, t3), (.keyRelease k, t4)] =
        ([false, false, false, true], ⟨.Idle, some k, false, t4, some t4⟩)) := by
  constructor
  · intro d e now hcool
    unfold DoubleTapDetector.handle_event
    cases htk : d.target_key
    · rfl
    · rw [hcool]
      simp
  · intro k tf e0 t1 t2 t3 t4 hcd h12 h2 h23 h3 h34 h4
    refine dt_double_tap_seq k e0 (some tf) t1 t2 t3 t4 ?_ h12 h2 h23 h3 h34 h4
    unfold DoubleTapDetector.in_cooldown
    simp only [COOLDOWN_MS] at *
    simp only [decide_eq_false_iff_not, not_lt]
    omega

/-- Witness for C7: a detector that fired at 200 ignores a press at 230
(inside the 50 ms cooldown) without any state change, and an identical
double-tap starting at 250 (cooldown elapsed) fires on its final release. -/
theorem C7_cooldown_gate_witness :
    (⟨.Idle, some .ShiftLeft, false, 200, some 200⟩ : DoubleTapDetector).in_cooldown 230 = true ∧
    DoubleTapDetector.handle_event ⟨.Idle, some .ShiftLeft, false, 200, some 200⟩
      (.keyPress .ShiftLeft) 230 =
      (false, ⟨.Idle, some .ShiftLeft, false, 200, some 200⟩) ∧
    dt_run ⟨.Idle, some .ShiftLeft, false, 200, some 200⟩
      [(.keyPress .ShiftLeft, 250), (.keyRelease .ShiftLeft, 300),
       (.keyPress .ShiftLeft, 400), (.keyRelease .ShiftLeft, 450)] =
      ([false, false, false, true], ⟨.Idle, some .ShiftLeft, false, 450, some 450⟩) :=
  ⟨rfl,
    C7_cooldown_gate.1 ⟨.Idle, some .ShiftLeft, false, 200, some 200⟩
      (.keyPress .ShiftLeft) 230 rfl,
    C7_cooldown_gate.2 .ShiftLeft 200 200 250 300 400 450 (by decide) (by decide) (by decide)
      (by decide) (by decide) (by decide) (by decide)⟩

/-- C8: a Press of a non-target, non-modifier key while the DoubleTapDetector
is in `WaitingFirstUp`, `WaitingSecondDown` or `WaitingSecondUp` (outside
cooldown) resets it to `Idle` and returns `false`. -/
theorem C8_nontarget_press_aborts (d : DoubleTapDetector) (k key : Key) (now : Nat)
    (ht : d.target_key = some k)
    (hs : d.state = .WaitingFirstUp ∨ d.state = .WaitingSecondDown ∨ d.state = .WaitingSecondUp)
    (hne : key ≠ k) (hm : is_modifier key = false)
    (hc : d.in_cooldown now = false) :
    d.handle_event (.keyPress key) now = (false, d.reset now) := by
  rcases d with ⟨st, tk, rec, e0, lf⟩
  simp only at ht hc
  subst ht
  rcases hs with h | h | h <;> simp only at h <;> subst h <;>
    simp_all [DoubleTapDetector.handle_event, DoubleTapDetector.reset, is_same_modifier,
      beq_iff_eq, DoubleTapDetector.elapsed_ms]

/-- Witness for C8: the trace Press(Shift)@0 then Press(KeyA)@30 — the KeyA
press aborts `WaitingFirstUp` back to `Idle` with no fire, so both events
return `false` and the run ends in `Idle`. -/
theorem C8_nontarget_press_aborts_witness :
    is_modifier Key.KeyA = false ∧
    DoubleTapDetector.handle_event ⟨.WaitingFirstUp, some .ShiftLeft, false, 0, none⟩
      (.keyPress .KeyA) 30 =
      (false, ⟨.Idle, some .ShiftLeft, false, 30, none⟩) ∧
    dt_run ⟨.Idle, some .ShiftLeft, false, 0, none⟩
      [(.keyPress .ShiftLeft, 0), (.keyPress .KeyA, 30)] =
      ([false, false], ⟨.Idle, some .ShiftLeft, false, 30, none⟩) :=
  ⟨rfl,
    C8_nontarget_press_aborts ⟨.WaitingFirstUp, some .ShiftLeft, false, 0, none⟩
      .ShiftLeft .KeyA 30 rfl (Or.inl rfl) (by decide) rfl rfl,
    by decide⟩

/-- C9: a detector whose target key is `None` never fires and never changes
state — for every event the DoubleTapDetector returns `false` and the
HoldDownDetector returns `None` — and every hotkey string other than
"shift_l", "alt_l", "ctrl_r" maps to no key at all. -/
theorem C9_unbound_detector_never_fires :
    (∀ (d : DoubleTapDetector), d.target_key = none →
      ∀ (e : EventType) (now : Nat), d.handle_event e now = (false, d)) ∧
    (∀ (d : HoldDownDetector), d.target_key = none →
      ∀ (e : EventType) (now : Nat), d.handle_event e now = (.None, d)) ∧
    (∀ s : String, s ≠ "shift_l" → s ≠ "alt_l" → s ≠ "ctrl_r" →
      hotkey_to_rdev_key s = none) := by
  refine ⟨?_, ?_, ?_⟩
  · intro d ht e now
    unfold DoubleTapDetector.handle_event
    rw [ht]
  · intro d ht e now
    unfold HoldDownDetector.handle_event
    rw [ht]
  · intro s h1 h2 h3
    unfold hotkey_to_rdev_key
    rw [if_neg h1, if_neg h2, if_neg h3]

/-- Witness for C9: an unbound DoubleTapDetector ignores a press, an unbound
HoldDownDetector ignores a press, and the unrecognized hotkey string
"caps_lock" maps to no key. -/
theorem C9_unbound_detector_never_fires_witness :
    (⟨.Idle, none, false, 0, none⟩ : DoubleTapDetector).target_key = none ∧
    DoubleTapDetector.handle_event ⟨.Idle, none, false, 0, none⟩ (.keyPress .ShiftLeft) 5 =
      (false, ⟨.Idle, none, false, 0, none⟩) ∧
    HoldDownDetector.handle_event ⟨.Idle, none, none⟩ (.keyPress .ShiftLeft) 5 =
      (.None, ⟨.Idle, none, none⟩) ∧
    hotkey_to_rdev_key "caps_lock" = none :=
  ⟨rfl,
    C9_unbound_detector_never_fires.1 ⟨.Idle, none, false, 0, none⟩ rfl (.keyPress .ShiftLeft) 5,
    C9_unbound_detector_never_fires.2.1 ⟨.Idle, none, none⟩ rfl (.keyPress .ShiftLeft) 5,
    C9_unbound_detector_never_fires.2.2 "caps_lock" (by decide) (by decide) (by decide)⟩

/-- C10: for a HoldDownDetector with a bound target key, each call returns
`Start` exactly on the `Idle → Held` transition, `Stop` exactly on
`Held → Idle`, and `None` exactly when the state is unchanged; consequently,
over any event sequence the non-`None` signals strictly alternate (starting
with `Start` from `Idle`) and the final state is determined by the most
recent non-`None` signal. -/
theorem C10_hold_signal_alternation (d : HoldDownDetector) (k : Key) (e : EventType)
    (now : Nat) (evs : List (EventType × Nat)) (ht : d.target_key = some k) :
    (((d.handle_event e now).1 = .Start ↔
      d.state = .Idle ∧ ((d.handle_event e now).2).state = .Held) ∧
    ((d.handle_event e now).1 = .Stop ↔
      d.state = .Held ∧ ((d.handle_event e now).2).state = .Idle) ∧
    ((d.handle_event e now).1 = .None ↔ ((d.handle_event e now).2).state = d.state)) ∧
    alternating d.state (signals (hold_run d evs).1) = true ∧
    ((hold_run d evs).2).state = state_after d.state (signals (hold_run d evs).1) :=
  ⟨hold_step_cases d k e now ht,
    (hold_run_alternating evs d k ht).1,
    (hold_run_alternating evs d k ht).2⟩

/-- Witness for C10: over Press@0, Release@300, Press@400, Release@700 the
signals are Start, Stop, Start, Stop — alternating from `Idle` — and the
final state matches the last signal. -/
theorem C10_hold_signal_alternation_witness :
    (⟨.Idle, some .ShiftLeft, none⟩ : HoldDownDetector).target_key = some .ShiftLeft ∧
    alternating HoldState.Idle
      (signals (hold_run ⟨.Idle, some .ShiftLeft, none⟩
        [(.keyPress .ShiftLeft, 0), (.keyRelease .ShiftLeft, 300),
         (.keyPress .ShiftLeft, 400), (.keyRelease .ShiftLeft, 700)]).1) = true :=
  ⟨rfl,
    (C10_hold_signal_alternation ⟨.Idle, some .ShiftLeft, none⟩ .ShiftLeft
      (.keyPress .ShiftLeft) 0
      [(.keyPress .ShiftLeft, 0), (.keyRelease .ShiftLeft, 300),
       (.keyPress .ShiftLeft, 400), (.keyRelease .ShiftLeft, 700)] rfl).2.1⟩

end Murmur
